import Mathlib

/-!
Verification of the USA-HUBS tile-to-county aggregation pipeline and its
visualization helpers. The aggregation tool itself
(tools/aggregate_tiles_to_counties.py) is not among the sources; it is
modelled from the specification. The shell orchestrators
(aggregate_counties.sh, phase2_complete.sh, tools/monitor_progress.sh) and
the browser color/layer code are embedded directly from the sources.
-/

namespace USAHubs

/-- A per-tile row of the tile-scores table (spec section 3): coordinates plus
six spectral index values. Index values are embedded as rationals. -/
structure TileRecord where
  tile_id : String
  longitude : ℚ
  latitude : ℚ
  ndvi : ℚ
  ndbi : ℚ
  ndwi : ℚ
  mndwi : ℚ
  ui : ℚ
  ndmi : ℚ
  capture_date : String
deriving DecidableEq

/-- A county of the reference dataset (spec section 3). The boundary polygon
is embedded as its point-in-polygon containment test, the semantics the spec
says is inherited from the geometry library. -/
structure CountyPolygon where
  fips_code : String
  name : String
  contains : ℚ → ℚ → Bool

/-- Weights for the obsolescence score, named as in
src/satellite-pipeline/config/settings.yaml lines 24-27. -/
structure ObsolescenceWeights where
  built_up : ℚ
  veg_health : ℚ
  urban_index : ℚ
deriving DecidableEq

/-- Weights for the growth-potential score, named as in
src/satellite-pipeline/config/settings.yaml lines 29-32. -/
structure GrowthPotentialWeights where
  veg_health : ℚ
  built_up_potential : ℚ
  water_availability : ℚ
deriving DecidableEq

/-- The configured obsolescence weights:
built_up 0.4, veg_health 0.4, urban_index 0.2
(src/satellite-pipeline/config/settings.yaml lines 24-27). -/
def obsolescence_weights : ObsolescenceWeights :=
  { built_up := 4/10, veg_health := 4/10, urban_index := 2/10 }

/-- The configured growth-potential weights:
veg_health 0.4, built_up_potential 0.4, water_availability 0.2
(src/satellite-pipeline/config/settings.yaml lines 29-32). -/
def growth_potential_weights : GrowthPotentialWeights :=
  { veg_health := 4/10, built_up_potential := 4/10, water_availability := 2/10 }

/-- One output feature of the aggregation (spec section 3, County Score). -/
structure CountyScore where
  fips_code : String
  obsolescence_score : ℚ
  growth_potential_score : ℚ
  bivariate_score : ℚ
  confidence : ℚ
  tile_count : Nat
deriving DecidableEq

/-- Clipping to the unit interval, as the spec requires for both scores:
values below 0 become 0, values above 1 become 1. -/
def clip01 (x : ℚ) : ℚ := if x ≤ 0 then 0 else if 1 ≤ x then 1 else x

/-- Arithmetic mean of a list of rationals (0 for the empty list, which the
aggregation never uses because zero-tile counties are filtered out). -/
def mean (xs : List ℚ) : ℚ := xs.sum / (xs.length : ℚ)

/-- Modelled from the spec (section 4.1, Spatial Join; the implementing file
tools/aggregate_tiles_to_counties.py is not among the sources): each tile is
assigned to the first county polygon found containing its point. -/
def assignCounty (counties : List CountyPolygon) (t : TileRecord) :
    Option CountyPolygon :=
  counties.find? (fun c => c.contains t.longitude t.latitude)

/-- Modelled from the spec (section 4.1): the list of tiles the spatial join
assigns to the county carrying the given FIPS code. -/
def countyTiles (counties : List CountyPolygon) (tiles : List TileRecord)
    (c : CountyPolygon) : List TileRecord :=
  tiles.filter (fun t =>
    match assignCounty counties t with
    | some k => k.fips_code == c.fips_code
    | none => false)

/-- Modelled from the spec (section 4.2, Aggregator; the implementing file is
not among the sources): per-county scores are weighted sums of mean index
values under the configured weights, clipped to the unit interval.
Vegetation health enters the obsolescence score as one minus NDVI, the
convention stated in spec section 8. The exact confidence and bivariate
formulas are unspecified; confidence is modelled as a clipped increasing
function of tile count and bivariate_score as the difference of the two
scores; no claim depends on their exact values. -/
def scoreCounty (c : CountyPolygon) (ts : List TileRecord) : CountyScore :=
  let obs := clip01 (obsolescence_weights.built_up * mean (ts.map TileRecord.ndbi)
      + obsolescence_weights.veg_health * mean (ts.map (fun t => 1 - t.ndvi))
      + obsolescence_weights.urban_index * mean (ts.map TileRecord.ui))
  let growth := clip01 (growth_potential_weights.veg_health * mean (ts.map TileRecord.ndvi)
      + growth_potential_weights.built_up_potential * mean (ts.map TileRecord.ndbi)
      + growth_potential_weights.water_availability * mean (ts.map TileRecord.ndwi))
  { fips_code := c.fips_code
    obsolescence_score := obs
    growth_potential_score := growth
    bivariate_score := growth - obs
    confidence := clip01 ((ts.length : ℚ) / ((ts.length : ℚ) + 1))
    tile_count := ts.length }

/-- Modelled from the spec (sections 4.2 and 4.3): the aggregation output has
one feature per county with at least one assigned tile; counties with zero
tiles are omitted. -/
def aggregate (counties : List CountyPolygon) (tiles : List TileRecord) :
    List CountyScore :=
  (counties.filter (fun c => !(countyTiles counties tiles c).isEmpty)).map
    (fun c => scoreCounty c (countyTiles counties tiles c))

/-- Modelled from the spec (section 5: each run is independent and stateless
relative to prior runs, the output is fully overwritten) and the fixed
--output path in src/aggregate_counties.sh: a run takes the previously
written output file and the inputs of this run, and writes the aggregation
of this run alone; the previous output is never read. -/
def runAggregation (prevOutput : List CountyScore)
    (counties : List CountyPolygon) (tiles : List TileRecord) :
    List CountyScore :=
  aggregate counties tiles

/-- The county used in the worked example of spec section 8; its boundary
contains every point. -/
def county12345 : CountyPolygon :=
  { fips_code := "12345", name := "Example County", contains := fun _ _ => true }

/-- One tile of the worked example of spec section 8:
ndbi 0.8, ndvi 0.2, ui 0.5. -/
def exampleTile (i : String) : TileRecord :=
  { tile_id := i, longitude := 0, latitude := 0, ndvi := 2/10, ndbi := 8/10,
    ndwi := 0, mndwi := 0, ui := 5/10, ndmi := 0, capture_date := "2024-01-01" }

/-- The three identical tiles of the worked example of spec section 8. -/
def exampleTiles : List TileRecord :=
  [exampleTile "t1", exampleTile "t2", exampleTile "t3"]

/-- A county carrying FIPS code 99999 whose boundary contains no point; used
to check the omission property of spec section 8. -/
def county99999 : CountyPolygon :=
  { fips_code := "99999", name := "Ghost County", contains := fun _ _ => false }

/-- A county whose boundary contains exactly the points with negative
longitude; used as a concrete instance of the tile-count invariant. -/
def witnessCounty : CountyPolygon :=
  { fips_code := "48201", name := "Witness County",
    contains := fun lon _ => decide (lon < 0) }

/-- A tile inside witnessCounty. -/
def tileNeg : TileRecord := { exampleTile "w1" with longitude := -1 }

/-- A tile outside witnessCounty. -/
def tilePos : TileRecord := { exampleTile "w2" with longitude := 1 }

/-- A county score present in a previously written output file; used as a
concrete instance for the batch-loop carry-over. -/
def prevScore : CountyScore :=
  { fips_code := "01001", obsolescence_score := 1/2,
    growth_potential_score := 1/2, bivariate_score := 0, confidence := 1/2,
    tile_count := 5 }

/-- A county score newly computed by one batch run. -/
def newScore : CountyScore :=
  { fips_code := "01003", obsolescence_score := 3/10,
    growth_potential_score := 7/10, bivariate_score := 4/10, confidence := 1/2,
    tile_count := 3 }

/-! Shell orchestrators, embedded from the sources. -/

/-- The regions iterated over by src/aggregate_counties.sh line 13. -/
def regions : List String := ["south", "west", "east"]

/-- The per-region tile-scores path of src/aggregate_counties.sh line 22. -/
def tileScoresPath (region : String) : String :=
  "data/" ++ region ++ "/tile_scores.csv"

/-- Outcome of one run of src/aggregate_counties.sh: which regions were
aggregated, which were skipped, and the exit status of the script. -/
structure AggregateCountiesRun where
  processedRegions : List String
  skippedRegions : List String
  exitCode : Nat
deriving DecidableEq

/-- Embeds src/aggregate_counties.sh lines 16-44: for each region, when the
tile-scores file is missing the region is skipped (lines 26-30, continue)
and the loop moves on; otherwise the aggregation tool runs. The script has
no exit statement and its last command is an echo, so it terminates with
exit status 0 in every case. -/
def aggregate_counties_sh (fileExists : String → Bool) : AggregateCountiesRun :=
  { processedRegions := regions.filter (fun r => fileExists (tileScoresPath r))
    skippedRegions := regions.filter (fun r => !fileExists (tileScoresPath r))
    exitCode := 0 }

/-- Outcome of one run of src/phase2_complete.sh: whether the combined
GeoJSON was written, whether the steps after the validation gate were
reached, and the exit status. -/
structure Phase2Run where
  combinedGeojsonWritten : Bool
  reachedFinalSteps : Bool
  exitCode : Nat
deriving DecidableEq

/-- Embeds src/phase2_complete.sh: step 4 (lines 59-64) exports the combined
GeoJSON, then step 5 (lines 70-73) runs the validation tool on it, and lines
76-79 test the validation exit status: when it is non-zero the script prints
an error and exits 1 before the remaining steps; otherwise it continues and
finishes with exit status 0. The validation tool itself is not among the
sources, so its exit status is a parameter. -/
def phase2_complete_sh (validationExitCode : Nat) : Phase2Run :=
  if validationExitCode ≠ 0 then
    { combinedGeojsonWritten := true, reachedFinalSteps := false, exitCode := 1 }
  else
    { combinedGeojsonWritten := true, reachedFinalSteps := true, exitCode := 0 }

/-- Embeds get_remaining_count of src/tools/monitor_progress.sh lines 44-74:
the remaining counties are all FIPS codes of the reference shapefile minus
the FIPS codes of the features already present in the existing output file. -/
def remainingFips (allFips : List String) (outputFeatures : List CountyScore) :
    List String :=
  allFips.filter (fun f => !(outputFeatures.any (fun cs => cs.fips_code == f)))

/-- Embeds the contract of the batch loop of src/tools/monitor_progress.sh
lines 76-109: each batch run of the (missing) remaining-counties tool adds
the newly computed county scores to the same output file, whose existing
features persist; the loop then recomputes the remaining count from that
file and expects it to shrink batch by batch. -/
def processBatch (outputFeatures newScores : List CountyScore) :
    List CountyScore :=
  outputFeatures ++ newScores

/-! Color interpolation, embedded from src/unnamed/part_000 lines 169-201 and
src/loghub/county-map-app.bak/src/components/CountyMap.js lines 16-48. -/

/-- The color stops of the obsolescence color scale: value 0 maps to blue
(44,123,182), value 0.5 to yellow (255,255,191), value 1 to red (215,25,28). -/
def colorScale : List (ℚ × (ℚ × ℚ × ℚ)) :=
  [(0, (44, 123, 182)), (1/2, (255, 255, 191)), (1, (215, 25, 28))]

/-- Math.round of JavaScript: round half toward positive infinity. -/
def jsRound (x : ℚ) : ℤ := ⌊x + 1/2⌋

/-- The lowerIndex search loop of interpolateColor: starting at index 1, the
first stop whose value is at least the input gives lowerIndex one less; when
no stop qualifies lowerIndex keeps its initial value 0. -/
def findLowerIndexAux (value : ℚ) : List (ℚ × (ℚ × ℚ × ℚ)) → Nat → Nat
  | [], _ => 0
  | (stop, _) :: rest, i =>
    if value ≤ stop then i - 1 else findLowerIndexAux value rest (i + 1)

/-- The lowerIndex computed by interpolateColor for a given input value: the
loop starts at index 1, that is, on the tail of the color scale. -/
def findLowerIndex (value : ℚ) : Nat :=
  findLowerIndexAux value colorScale.tail 1

/-- Embeds interpolateColor: picks the surrounding pair of color stops, forms
the interpolation factor, and rounds the channel-wise linear interpolation
of the two stop colors. -/
def interpolateColor (value : ℚ) : ℤ × ℤ × ℤ :=
  let lowerIndex := findLowerIndex value
  let lowerValue := (colorScale.getD lowerIndex (0, (0, 0, 0))).1
  let upperValue := (colorScale.getD (lowerIndex + 1) (0, (0, 0, 0))).1
  let lowerColor := (colorScale.getD lowerIndex (0, (0, 0, 0))).2
  let upperColor := (colorScale.getD (lowerIndex + 1) (0, (0, 0, 0))).2
  let range := upperValue - lowerValue
  let factor := (value - lowerValue) / range
  (jsRound (lowerColor.1 + factor * (upperColor.1 - lowerColor.1)),
   jsRound (lowerColor.2.1 + factor * (upperColor.2.1 - lowerColor.2.1)),
   jsRound (lowerColor.2.2 + factor * (upperColor.2.2 - lowerColor.2.2)))

/-- Written from the words of the specification, for comparison with
interpolateColor: the channel-wise rounded linear interpolation between the
configured color stops, on the lower segment for values up to 0.5 and on the
upper segment above. -/
def jsRoundLerp (a b t : ℚ) : ℤ := jsRound (a + t * (b - a))

/-- Written from the words of the specification (linear color interpolation
between the stops 0, 0.5 and 1), for comparison with interpolateColor. -/
def specLinearColor (v : ℚ) : ℤ × ℤ × ℤ :=
  if v ≤ 1/2 then
    (jsRoundLerp 44 255 (v / (1/2)),
     jsRoundLerp 123 255 (v / (1/2)),
     jsRoundLerp 182 191 (v / (1/2)))
  else
    (jsRoundLerp 255 215 ((v - 1/2) / (1/2)),
     jsRoundLerp 255 25 ((v - 1/2) / (1/2)),
     jsRoundLerp 191 28 ((v - 1/2) / (1/2)))

/-! Bivariate layer expressions, embedded from
src/src/components/map/layers/bivariateLayers.js. -/

/-- The fragment of the Mapbox expression language the bivariate layers use
for their interpolation input. -/
inductive MapboxExpr where
  | lit : ℚ → MapboxExpr
  | get : String → MapboxExpr
  | div : MapboxExpr → MapboxExpr → MapboxExpr
deriving DecidableEq

/-- Total evaluator for the embedded Mapbox expressions over the properties
of one county feature: a missing property or a zero denominator has no
defined result. -/
def evalExpr (props : String → Option ℚ) : MapboxExpr → Option ℚ
  | .lit q => some q
  | .get key => props key
  | .div a b =>
    match evalExpr props a, evalExpr props b with
    | some x, some y => if y = 0 then none else some (x / y)
    | _, _ => none

/-- The interpolation input of the fill-color paint expression of
createBivariateFillLayer (src/src/components/map/layers/bivariateLayers.js
line 23): growth_potential_score divided by obsolescence_score, with no
guard on the denominator. -/
def bivariateFillColorInput : MapboxExpr :=
  .div (.get "growth_potential_score") (.get "obsolescence_score")

/-- The interpolation input of the fill-extrusion-color paint expression of
createBivariateExtrusionLayer
(src/src/components/map/layers/bivariateLayers.js line 53): the same
unguarded division. -/
def bivariateExtrusionColorInput : MapboxExpr :=
  .div (.get "growth_potential_score") (.get "obsolescence_score")

/-- The properties of a county feature holding just the two scores the
bivariate expressions read. -/
def featureProps (g o : ℚ) : String → Option ℚ := fun key =>
  if key = "growth_potential_score" then some g
  else if key = "obsolescence_score" then some o
  else none

/-! Theorems. -/

/-- Clipping to the unit interval is bounded below by 0. -/
theorem clip01_nonneg (x : ℚ) : 0 ≤ clip01 x := by
  unfold clip01
  split <;> [norm_num; skip]
  split <;> [norm_num; linarith]

/-- Clipping to the unit interval is bounded above by 1. -/
theorem clip01_le_one (x : ℚ) : clip01 x ≤ 1 := by
  unfold clip01
  split <;> [norm_num; skip]
  split <;> [norm_num; linarith]

/-- Characterization of the aggregation output: a feature is in the output
exactly when it is the score of a county of the reference list with at least
one assigned tile. -/
theorem mem_aggregate_iff (counties : List CountyPolygon)
    (tiles : List TileRecord) (cs : CountyScore) :
    cs ∈ aggregate counties tiles ↔
      ∃ c, c ∈ counties ∧ countyTiles counties tiles c ≠ [] ∧
        cs = scoreCounty c (countyTiles counties tiles c) := by
  unfold aggregate
  simp only [List.mem_map, List.mem_filter, Bool.not_eq_true']
  constructor
  · rintro ⟨c, ⟨hc, hne⟩, rfl⟩
    refine ⟨c, hc, ?_, rfl⟩
    simpa [List.isEmpty_iff] using hne
  · rintro ⟨c, hc, hne, rfl⟩
    refine ⟨c, ⟨hc, ?_⟩, rfl⟩
    simpa [List.isEmpty_iff] using hne

/-- The list of tiles assigned to a county depends only on its FIPS code. -/
theorem countyTiles_congr_fips (counties : List CountyPolygon)
    (tiles : List TileRecord) (c1 c2 : CountyPolygon)
    (h : c1.fips_code = c2.fips_code) :
    countyTiles counties tiles c1 = countyTiles counties tiles c2 := by
  unfold countyTiles
  apply List.filter_congr
  intro t ht
  rcases hA : assignCounty counties t with _ | k <;> simp [hA, h]

/-- With a single county containing every given tile, the spatial join
assigns all tiles to it. -/
theorem countyTiles_single (c : CountyPolygon) (tiles : List TileRecord)
    (h : ∀ t ∈ tiles, c.contains t.longitude t.latitude = true) :
    countyTiles [c] tiles c = tiles := by
  unfold countyTiles
  rw [List.filter_eq_self]
  intro t ht
  simp [assignCounty, List.find?, h t ht]

/-- With a single county containing every given tile and at least one tile,
the aggregation output is exactly the score of that county over all tiles. -/
theorem aggregate_single (c : CountyPolygon) (tiles : List TileRecord)
    (h : ∀ t ∈ tiles, c.contains t.longitude t.latitude = true)
    (hne : tiles ≠ []) :
    aggregate [c] tiles = [scoreCounty c tiles] := by
  have hct : countyTiles [c] tiles c = tiles := countyTiles_single c tiles h
  unfold aggregate
  simp [hct, List.isEmpty_iff, hne]

/-- When no county contains the point of a tile, the spatial join drops it
for every county. -/
theorem countyTiles_none_case (counties : List CountyPolygon)
    (tiles : List TileRecord) (c : CountyPolygon) (hc : c ∈ counties)
    (hnodup : counties.Pairwise (fun a b => a.fips_code ≠ b.fips_code))
    (hdisj : ∀ t ∈ tiles, ∀ k ∈ counties, ∀ k2 ∈ counties,
      k.contains t.longitude t.latitude = true →
      k2.contains t.longitude t.latitude = true → k.fips_code = k2.fips_code) :
    countyTiles counties tiles c =
      tiles.filter (fun t => c.contains t.longitude t.latitude) := by
  unfold countyTiles
  apply List.filter_congr
  intro t ht
  rcases hfind : assignCounty counties t with _ | k
  · unfold assignCounty at hfind
    have hcc : c.contains t.longitude t.latitude = false := by
      have := List.find?_eq_none.mp hfind c hc
      simpa using this
    simp [hcc]
  · unfold assignCounty at hfind
    have hk_mem : k ∈ counties := List.mem_of_find?_eq_some hfind
    have hk_true : k.contains t.longitude t.latitude = true := by
      simpa using List.find?_some hfind
    by_cases hcx : c.contains t.longitude t.latitude = true
    · have hkc : k.fips_code = c.fips_code := hdisj t ht k hk_mem c hc hk_true hcx
      simp [hcx, hkc]
    · have hcf : c.contains t.longitude t.latitude = false := by
        simpa using hcx
      have hne2 : k.fips_code ≠ c.fips_code := by
        intro heq
        have hkc : k ≠ c := by
          intro hkeq
          rw [hkeq, hcf] at hk_true
          exact Bool.false_ne_true hk_true
        have hsymm : Symmetric (fun a b : CountyPolygon =>
            a.fips_code ≠ b.fips_code) := by
          intro a b hab hba
          exact hab hba.symm
        exact (hnodup.forall hsymm) hk_mem hc hkc heq
      simp [hcf, beq_eq_false_iff_ne, hne2]

/-- C1: for every feature of the aggregation output and the county of the
reference list carrying its FIPS code, the feature tile count equals the
number of input tiles whose point lies inside that county boundary. The two
hypotheses record that FIPS codes are unique and that no tile point lies in
two county boundaries, the setting in which the point-in-polygon assignment
of the spatial join is unambiguous. -/
theorem output_tile_count_eq_contained (counties : List CountyPolygon)
    (tiles : List TileRecord)
    (hnodup : counties.Pairwise (fun a b => a.fips_code ≠ b.fips_code))
    (hdisj : ∀ t ∈ tiles, ∀ k ∈ counties, ∀ k2 ∈ counties,
      k.contains t.longitude t.latitude = true →
      k2.contains t.longitude t.latitude = true → k.fips_code = k2.fips_code)
    (cs : CountyScore) (hcs : cs ∈ aggregate counties tiles)
    (c : CountyPolygon) (hc : c ∈ counties)
    (hfips : cs.fips_code = c.fips_code) :
    cs.tile_count =
      (tiles.filter (fun t => c.contains t.longitude t.latitude)).length := by
  obtain ⟨c2, hc2, hne, rfl⟩ := (mem_aggregate_iff counties tiles cs).mp hcs
  have h2 : c2.fips_code = c.fips_code := hfips
  have htc : (scoreCounty c2 (countyTiles counties tiles c2)).tile_count
      = (countyTiles counties tiles c2).length := rfl
  rw [htc, countyTiles_congr_fips counties tiles c2 c h2,
    countyTiles_none_case counties tiles c hc hnodup hdisj]

/-- Witness for C1 at a concrete input. -/
theorem output_tile_count_eq_contained_witness :
    ([witnessCounty].Pairwise (fun a b => a.fips_code ≠ b.fips_code)) ∧
      (∀ t ∈ [tileNeg], ∀ k ∈ [witnessCounty], ∀ k2 ∈ [witnessCounty],
        k.contains t.longitude t.latitude = true →
        k2.contains t.longitude t.latitude = true →
        k.fips_code = k2.fips_code) ∧
      (scoreCounty witnessCounty [tileNeg]).tile_count =
        ([tileNeg].filter
          (fun t => witnessCounty.contains t.longitude t.latitude)).length := by
  refine ⟨by simp, by simp, ?_⟩
  have hmem : scoreCounty witnessCounty [tileNeg] ∈
      aggregate [witnessCounty] [tileNeg] := by
    rw [aggregate_single witnessCounty [tileNeg]
      (by norm_num [witnessCounty, tileNeg, exampleTile]) (by simp)]
    exact List.mem_singleton.mpr rfl
  exact output_tile_count_eq_contained [witnessCounty] [tileNeg] (by simp)
    (by simp) (scoreCounty witnessCounty [tileNeg]) hmem witnessCounty
    (List.mem_singleton.mpr rfl) rfl

/-- C2: when no input tile lies inside the boundary of any county carrying a
given FIPS code, no feature with that FIPS code appears in the aggregation
output; the county is omitted entirely rather than given a default score. -/
theorem zero_tile_county_omitted (counties : List CountyPolygon)
    (tiles : List TileRecord) (f : String)
    (hout : ∀ t ∈ tiles, ∀ c ∈ counties, c.fips_code = f →
      c.contains t.longitude t.latitude = false) :
    ¬ ∃ cs, cs ∈ aggregate counties tiles ∧ cs.fips_code = f := by
  rintro ⟨cs, hcs, hf⟩
  obtain ⟨c, hc, hne, rfl⟩ := (mem_aggregate_iff counties tiles cs).mp hcs
  have hcf : c.fips_code = f := hf
  obtain ⟨t, ht⟩ := List.exists_mem_of_ne_nil _ hne
  unfold countyTiles at ht
  have htl := (List.mem_filter.mp ht).1
  have hmatch := (List.mem_filter.mp ht).2
  rcases hfind : assignCounty counties t with _ | k
  · simp [hfind] at hmatch
  · simp only [hfind] at hmatch
    unfold assignCounty at hfind
    have hk_mem : k ∈ counties := List.mem_of_find?_eq_some hfind
    have hk_true : k.contains t.longitude t.latitude = true := by
      simpa using List.find?_some hfind
    have hkf : k.fips_code = c.fips_code := by simpa using hmatch
    have hfalse := hout t htl k hk_mem (hkf.trans hcf)
    rw [hfalse] at hk_true
    exact Bool.false_ne_true hk_true

/-- Witness for C2 at a concrete input: zero input tiles for county 99999. -/
theorem zero_tile_county_omitted_witness :
    (∀ t ∈ ([] : List TileRecord), ∀ c ∈ [county99999],
        c.fips_code = "99999" → c.contains t.longitude t.latitude = false) ∧
      ¬ ∃ cs, cs ∈ aggregate [county99999] [] ∧ cs.fips_code = "99999" :=
  ⟨by simp, zero_tile_county_omitted [county99999] [] "99999" (by simp)⟩

/-- C3: every feature of the aggregation output has its obsolescence score
and its growth-potential score inside the unit interval: each is a weighted
sum under the configured weights clipped to the unit interval. -/
theorem aggregate_scores_in_unit_interval
    (counties : List CountyPolygon) (tiles : List TileRecord)
    (cs : CountyScore) (hcs : cs ∈ aggregate counties tiles) :
    0 ≤ cs.obsolescence_score ∧ cs.obsolescence_score ≤ 1 ∧
      0 ≤ cs.growth_potential_score ∧ cs.growth_potential_score ≤ 1 := by
  obtain ⟨c, -, -, rfl⟩ := (mem_aggregate_iff counties tiles cs).mp hcs
  exact ⟨clip01_nonneg _, clip01_le_one _, clip01_nonneg _, clip01_le_one _⟩

/-- Witness for C3 at a concrete input. -/
theorem aggregate_scores_in_unit_interval_witness :
    scoreCounty county12345 exampleTiles ∈ aggregate [county12345] exampleTiles ∧
      (0 ≤ (scoreCounty county12345 exampleTiles).obsolescence_score ∧
        (scoreCounty county12345 exampleTiles).obsolescence_score ≤ 1 ∧
        0 ≤ (scoreCounty county12345 exampleTiles).growth_potential_score ∧
        (scoreCounty county12345 exampleTiles).growth_potential_score ≤ 1) := by
  have hmem : scoreCounty county12345 exampleTiles ∈ aggregate [county12345] exampleTiles := by
    rw [aggregate_single county12345 exampleTiles (by simp [county12345])
      (by simp [exampleTiles])]
    exact List.mem_singleton.mpr rfl
  exact ⟨hmem, aggregate_scores_in_unit_interval [county12345] exampleTiles _ hmem⟩

/-- C4: a pipeline run is a function of its input alone: whatever the
previously written output was, running the aggregation on identical input
produces identical scores, namely the aggregation of that input. -/
theorem runAggregation_stateless (prev1 prev2 : List CountyScore)
    (counties : List CountyPolygon) (tiles : List TileRecord) :
    runAggregation prev1 counties tiles = runAggregation prev2 counties tiles ∧
      runAggregation prev1 counties tiles = aggregate counties tiles :=
  ⟨rfl, rfl⟩

/-- C5: three tiles with ndbi 0.8, ndvi 0.2, ui 0.5 inside county 12345,
under the configured weights and with vegetation health one minus NDVI,
yield obsolescence score 0.74 for that county. -/
theorem example_obsolescence_score :
    (aggregate [county12345] exampleTiles).map
        (fun cs => (cs.fips_code, cs.obsolescence_score)) = [("12345", 74/100)] := by
  rw [aggregate_single county12345 exampleTiles (by simp [county12345])
    (by simp [exampleTiles])]
  simp only [List.map_cons, List.map_nil, Prod.mk.injEq, List.cons.injEq, and_true]
  constructor
  · rfl
  · norm_num [scoreCounty, county12345, exampleTiles, exampleTile, mean, clip01,
      obsolescence_weights]

/-- C6 counterexample: with every tile-scores file missing, the aggregation
script skips all three regions and terminates with exit status 0, not a
non-zero status. -/
theorem missing_tile_scores_not_fatal :
    (aggregate_counties_sh (fun _ => false)).skippedRegions =
        ["south", "west", "east"] ∧
      (aggregate_counties_sh (fun _ => false)).processedRegions = [] ∧
      (aggregate_counties_sh (fun _ => false)).exitCode = 0 := by
  decide

/-- C6 (amended): a missing tile-scores file for a region is not fatal: the
region is skipped, the other regions still run, and the script terminates
with exit status 0. -/
theorem missing_tile_scores_skips_region (fileExists : String → Bool)
    (r : String) (hr : r ∈ regions)
    (hmiss : fileExists (tileScoresPath r) = false) :
    r ∈ (aggregate_counties_sh fileExists).skippedRegions ∧
      r ∉ (aggregate_counties_sh fileExists).processedRegions ∧
      (aggregate_counties_sh fileExists).exitCode = 0 := by
  unfold aggregate_counties_sh
  refine ⟨?_, ?_, rfl⟩
  · simp [List.mem_filter, hr, hmiss]
  · simp [List.mem_filter, hmiss]

/-- Witness for the amended C6 at a concrete input. -/
theorem missing_tile_scores_skips_region_witness :
    "south" ∈ regions ∧
      (fun _ : String => false) (tileScoresPath "south") = false ∧
      ("south" ∈ (aggregate_counties_sh (fun _ => false)).skippedRegions ∧
        "south" ∉ (aggregate_counties_sh (fun _ => false)).processedRegions ∧
        (aggregate_counties_sh (fun _ => false)).exitCode = 0) :=
  ⟨by decide, rfl,
    missing_tile_scores_skips_region (fun _ => false) "south" (by decide) rfl⟩

/-- C7 counterexample: when the validation step reports failure through exit
status 1, the phase-2 script aborts with exit status 1 before the remaining
steps: the validation pass does act as a hard gate on the run. -/
theorem validation_failure_aborts_run :
    (phase2_complete_sh 1).exitCode = 1 ∧
      (phase2_complete_sh 1).reachedFinalSteps = false := by
  decide

/-- C7 (amended): the combined GeoJSON is written regardless of the
validation result, because the export step precedes validation; but a
failing validation aborts the run with exit status 1 and the steps after
the gate are not reached. -/
theorem geojson_written_but_validation_gates (validationExitCode : Nat) :
    (phase2_complete_sh validationExitCode).combinedGeojsonWritten = true ∧
      (validationExitCode ≠ 0 →
        (phase2_complete_sh validationExitCode).exitCode = 1 ∧
          (phase2_complete_sh validationExitCode).reachedFinalSteps = false) := by
  unfold phase2_complete_sh
  by_cases h : validationExitCode ≠ 0 <;> simp [h]

/-- Witness for the amended C7 at a concrete input. -/
theorem geojson_written_but_validation_gates_witness :
    (phase2_complete_sh 2).combinedGeojsonWritten = true ∧
      ((phase2_complete_sh 2).exitCode = 1 ∧
        (phase2_complete_sh 2).reachedFinalSteps = false) :=
  ⟨(geojson_written_but_validation_gates 2).1,
    (geojson_written_but_validation_gates 2).2 (by decide)⟩

/-- C8 counterexample: a batch run whose new scores concern only county
01003, applied to a previously written output holding the score of county
01001, yields an output that still contains the 01001 score: a county score
is carried over from the previously written output file. -/
theorem batch_run_carries_over_prior_scores :
    prevScore ∈ processBatch [prevScore] [newScore] ∧
      remainingFips ["01001", "01003"] [prevScore] = ["01003"] ∧
      processBatch [prevScore] [newScore] ≠ [newScore] := by
  refine ⟨by simp [processBatch], ?_, by simp [processBatch]⟩
  simp [remainingFips, prevScore]

/-- C8 (amended): the full-region aggregation run recomputes county scores
wholesale, its output determined solely by that run's inputs; the batch
remaining-counties loop instead appends each batch to the previously
written output file, so every prior county score is carried over into the
new output. -/
theorem wholesale_vs_batch_merge (prev1 prev2 : List CountyScore)
    (counties : List CountyPolygon) (tiles : List TileRecord)
    (output newScores : List CountyScore) (cs : CountyScore)
    (hcs : cs ∈ output) :
    runAggregation prev1 counties tiles = runAggregation prev2 counties tiles ∧
      cs ∈ processBatch output newScores :=
  ⟨rfl, List.mem_append_left _ hcs⟩

/-- Witness for the amended C8 at a concrete input. -/
theorem wholesale_vs_batch_merge_witness :
    prevScore ∈ [prevScore] ∧
      (runAggregation [] [] [] = runAggregation [newScore] [] [] ∧
        prevScore ∈ processBatch [prevScore] [newScore]) :=
  ⟨List.mem_singleton.mpr rfl,
    wholesale_vs_batch_merge [] [newScore] [] [] [prevScore] [newScore]
      prevScore (List.mem_singleton.mpr rfl)⟩

/-- C9: for every score value in the unit interval, interpolateColor returns
the channel-wise rounded linear interpolation between the configured color
stops, and at the stop values 0, 0.5 and 1 it returns exactly the three stop
colors (44,123,182), (255,255,191) and (215,25,28). -/
theorem interpolateColor_matches_linear_stops (v : ℚ) (h0 : 0 ≤ v)
    (h1 : v ≤ 1) :
    interpolateColor v = specLinearColor v ∧
      interpolateColor 0 = (44, 123, 182) ∧
      interpolateColor (1/2) = (255, 255, 191) ∧
      interpolateColor 1 = (215, 25, 28) := by
  refine ⟨?_, ?stop0, ?stop1, ?stop2⟩
  case stop0 =>
    norm_num [interpolateColor, findLowerIndex, findLowerIndexAux, colorScale,
      List.getD, jsRound, Int.floor_eq_iff]
  case stop1 =>
    norm_num [interpolateColor, findLowerIndex, findLowerIndexAux, colorScale,
      List.getD, jsRound, Int.floor_eq_iff]
  case stop2 =>
    norm_num [interpolateColor, findLowerIndex, findLowerIndexAux, colorScale,
      List.getD, jsRound, Int.floor_eq_iff]
  by_cases hv : v ≤ 1/2
  · have hidx : findLowerIndex v = 0 := by
      simp only [findLowerIndex, colorScale, List.tail_cons, findLowerIndexAux,
        if_pos hv]
    unfold interpolateColor specLinearColor jsRoundLerp
    rw [hidx, if_pos hv]
    simp only [colorScale, List.getD_cons_zero, List.getD_cons_succ]
    refine Prod.ext ?_ (Prod.ext ?_ ?_) <;> · show jsRound _ = jsRound _
                                              congr 1
                                              ring
  · have hidx : findLowerIndex v = 1 := by
      simp only [findLowerIndex, colorScale, List.tail_cons, findLowerIndexAux,
        if_neg hv, if_pos h1]
    unfold interpolateColor specLinearColor jsRoundLerp
    rw [hidx, if_neg hv]
    simp only [colorScale, List.getD_cons_zero, List.getD_cons_succ]
    refine Prod.ext ?_ (Prod.ext ?_ ?_) <;> · show jsRound _ = jsRound _
                                              congr 1
                                              ring

/-- Witness for C9 at a concrete input. -/
theorem interpolateColor_matches_linear_stops_witness :
    (0:ℚ) ≤ 1/4 ∧ (1/4:ℚ) ≤ 1 ∧
      (interpolateColor (1/4) = specLinearColor (1/4) ∧
        interpolateColor 0 = (44, 123, 182) ∧
        interpolateColor (1/2) = (255, 255, 191) ∧
        interpolateColor 1 = (215, 25, 28)) :=
  ⟨by norm_num, by norm_num,
    interpolateColor_matches_linear_stops (1/4) (by norm_num) (by norm_num)⟩

/-- C10: both bivariate paint expressions divide growth_potential_score by
obsolescence_score with no guard on the denominator: for a feature with a
nonzero obsolescence score the interpolation input is the ratio, and for a
feature with obsolescence score 0 the division has no defined result. -/
theorem bivariate_ratio_unguarded (g o : ℚ) :
    (o ≠ 0 →
      evalExpr (featureProps g o) bivariateFillColorInput = some (g / o) ∧
        evalExpr (featureProps g o) bivariateExtrusionColorInput = some (g / o)) ∧
      (evalExpr (featureProps g 0) bivariateFillColorInput = none ∧
        evalExpr (featureProps g 0) bivariateExtrusionColorInput = none) := by
  have h1 : ∀ o2 : ℚ, featureProps g o2 "growth_potential_score" = some g :=
    fun o2 => rfl
  have h2 : ∀ o2 : ℚ, featureProps g o2 "obsolescence_score" = some o2 :=
    fun o2 => rfl
  constructor
  · intro ho
    constructor <;>
      simp [evalExpr, bivariateFillColorInput, bivariateExtrusionColorInput,
        h1, h2, ho]
  · constructor <;>
      simp [evalExpr, bivariateFillColorInput, bivariateExtrusionColorInput,
        h1, h2]

/-- Witness for C10 at a concrete input. -/
theorem bivariate_ratio_unguarded_witness :
    evalExpr (featureProps 1 2) bivariateFillColorInput = some (1 / 2) ∧
      evalExpr (featureProps 1 0) bivariateFillColorInput = none :=
  ⟨by simpa using ((bivariate_ratio_unguarded 1 2).1 (by norm_num)).1,
    (bivariate_ratio_unguarded 1 0).2.1⟩

end USAHubs
